import Mathlib

/-
  Verification development for the brick-hero breakout game
  (src/breaker.rs, src/bricks.rs, src/walls.rs, src/health.rs,
   src/app_state.rs, src/misc/blink.rs).

  Floating-point (f32) quantities are embedded as rationals: every constant
  in the sources is exactly representable and the operations the claims
  depend on (add, subtract, halve, negate, compare, clamp, floor) are exact.
  Stateful Bevy systems are embedded as explicit state-passing functions;
  Rust panics are embedded as `Except.error`.
-/

namespace BrickHero

/-- 2D vector with rational components (embeds glam Vec2 / truncated Vec3). -/
structure Vec2 where
  x : ℚ
  y : ℚ
deriving DecidableEq

/-- 3D vector (embeds glam Vec3 where the z component matters, e.g. translations). -/
structure Vec3Q where
  x : ℚ
  y : ℚ
  z : ℚ
deriving DecidableEq

/-- Collision side, from bevy 0.11 sprite::collide_aabb::Collision
(the dependency version matching the `FixedTime` / `EventReader::iter` API
used by src/breaker.rs). -/
inductive Collision where
  | Left
  | Right
  | Top
  | Bottom
  | Inside
deriving DecidableEq

/-- A transform restricted to what the collision passes read:
2D translation and 2D scale (the sources call `.truncate()` on both). -/
structure Transform2 where
  pos : Vec2
  scale : Vec2
deriving DecidableEq

/-- Embeds bevy 0.11 `sprite::collide_aabb::collide` (the external helper
every collision pass in src/breaker.rs and src/walls.rs calls):
AABB overlap test returning the side of box B that box A hit, picking the
shallower penetration axis, `Inside` when neither axis reports a side. -/
def collide (aPos aSize bPos bSize : Vec2) : Option Collision :=
  let aMin : Vec2 := ⟨aPos.x - aSize.x / 2, aPos.y - aSize.y / 2⟩
  let aMax : Vec2 := ⟨aPos.x + aSize.x / 2, aPos.y + aSize.y / 2⟩
  let bMin : Vec2 := ⟨bPos.x - bSize.x / 2, bPos.y - bSize.y / 2⟩
  let bMax : Vec2 := ⟨bPos.x + bSize.x / 2, bPos.y + bSize.y / 2⟩
  if aMin.x < bMax.x ∧ aMax.x > bMin.x ∧ aMin.y < bMax.y ∧ aMax.y > bMin.y then
    let xPair : Option Collision × ℚ :=
      if aMin.x < bMin.x ∧ aMax.x > bMin.x ∧ aMax.x < bMax.x then
        (some Collision.Left, bMin.x - aMax.x)
      else if aMin.x > bMin.x ∧ aMin.x < bMax.x ∧ aMax.x > bMax.x then
        (some Collision.Right, aMin.x - bMax.x)
      else (none, 0)
    let yPair : Option Collision × ℚ :=
      if aMin.y < bMin.y ∧ aMax.y > bMin.y ∧ aMax.y < bMax.y then
        (some Collision.Bottom, bMin.y - aMax.y)
      else if aMin.y > bMin.y ∧ aMin.y < bMax.y ∧ aMax.y > bMax.y then
        (some Collision.Top, aMin.y - bMax.y)
      else (none, 0)
    match xPair, yPair with
    | (some xc, xd), (some yc, yd) => if |yd| < |xd| then some yc else some xc
    | (some xc, _), (none, _) => some xc
    | (none, _), (some yc, _) => some yc
    | (none, _), (none, _) => some Collision.Inside
  else
    none

/- Constants from src/walls.rs. -/

def WALL_THICKNESS : ℚ := 10
def LEFT_WALL : ℚ := -450
def RIGHT_WALL : ℚ := 450
def BOTTOM_WALL : ℚ := -300
def TOP_WALL : ℚ := 300

def arena_height : ℚ := TOP_WALL - BOTTOM_WALL
def arena_width : ℚ := RIGHT_WALL - LEFT_WALL

/-- WallBundle::new(WallLocation::Left): translation (LEFT_WALL, 0), scale from WallLocation::size. -/
def leftWallTform : Transform2 :=
  ⟨⟨LEFT_WALL, 0⟩, ⟨WALL_THICKNESS, arena_height + WALL_THICKNESS⟩⟩

def rightWallTform : Transform2 :=
  ⟨⟨RIGHT_WALL, 0⟩, ⟨WALL_THICKNESS, arena_height + WALL_THICKNESS⟩⟩

def topWallTform : Transform2 :=
  ⟨⟨0, TOP_WALL⟩, ⟨arena_width + WALL_THICKNESS, WALL_THICKNESS⟩⟩

def bottomWallTform : Transform2 :=
  ⟨⟨0, BOTTOM_WALL⟩, ⟨arena_width + WALL_THICKNESS, WALL_THICKNESS⟩⟩

/-- The colliders seen by check_wall_collision: walls Without BottomWall,
exactly the left/right/top walls spawned by walls::setup. -/
def sideTopWalls : List Transform2 := [leftWallTform, rightWallTform, topWallTform]

/- Constants from src/breaker.rs. -/

def PADDLE_DIST_FROM_BOTTOM_WALL : ℚ := 60
def PADDLE_SIZE_X : ℚ := 120
def PADDLE_PADDING : ℚ := 10
def PADDLE_MAX_MOMENTUM : ℚ := 7
def PADDLE_STARTING_POSITION_X : ℚ := 0
def PADDLE_STARTING_POSITION_Y : ℚ := BOTTOM_WALL + PADDLE_DIST_FROM_BOTTOM_WALL

def PADDLE_LEFT_BOUND : ℚ :=
  LEFT_WALL + WALL_THICKNESS / 2 + PADDLE_SIZE_X / 2 + PADDLE_PADDING

def PADDLE_RIGHT_BOUND : ℚ :=
  RIGHT_WALL - WALL_THICKNESS / 2 - PADDLE_SIZE_X / 2 - PADDLE_PADDING

def BALL_STARTING_POSITION : Vec3Q := ⟨-150, -50, 1⟩

def PLAYER_STARTING_HEALTH : ℕ := 3

/-- BLINK_DURATION (seconds) attached to the Blinking timer. -/
def BLINK_DURATION : ℚ := 1

/- src/breaker.rs event and state enums. -/

inductive GameState where
  | Uninitialized
  | Playing
  | Paused
deriving DecidableEq

inductive GameStateTransition where
  | ToUninitialized
  | ToPlayGame
  | ToHaltGame
  | NextLevel
  | ToGameOver
deriving DecidableEq

/-- src/app_state.rs AppStateTransition (the outer app-state machine's requests). -/
inductive AppStateTransition where
  | ToMainMenu
  | ToInGame
  | ToGameOver
  | ToExit
deriving DecidableEq

inductive ControlStyle where
  | Edges
  | Momentum
  | Unaltered
deriving DecidableEq

/-- A Rust panic outcome (process abort), used as the error of `Except`. -/
inductive Abort where
  | youLost
  | levelIndexOutOfBounds
deriving DecidableEq

/- Constants and layout table from src/bricks.rs. -/

structure Color where
  r : ℚ
  g : ℚ
  b : ℚ
deriving DecidableEq

def BRICK_SIZE_X : ℚ := 100
def BRICK_MARGIN : ℚ := 5
def BRICK_DIST_FROM_SIDE_WALL : ℚ := 60

/-- BRICK_COLORS: the 3-entry strength→tint table (strength-1 indexes it). -/
def BRICK_COLORS : List Color :=
  [⟨1/2, 1/2, 1⟩, ⟨1, 1/2, 1⟩, ⟨1/2, 1, 1/2⟩]

/-- LEVELS: the 5-entry table of per-row brick strengths. -/
def LEVELS : List (List ℕ) :=
  [[1, 1, 1, 1, 1],
   [2, 1, 1, 1, 2],
   [1, 1, 2, 2, 3],
   [1, 3, 1, 3, 1],
   [3, 3, 1, 3, 3]]

/-- brick_cols from spawn_bricks: floor(bricks_width / (BRICK_SIZE.x + BRICK_MARGIN)). -/
def brick_cols : ℕ :=
  (⌊(arena_width - 2 * BRICK_DIST_FROM_SIDE_WALL) / (BRICK_SIZE_X + BRICK_MARGIN)⌋).toNat

/-- spawn_brick_row spawns `cols` bricks, all with the given strength. -/
def spawn_brick_row (strength : ℕ) (cols : ℕ) : List ℕ :=
  List.replicate cols strength

/-- Embeds spawn_bricks (src/bricks.rs) at the granularity the claims need:
the multiset of brick strengths spawned for a level. The source indexes
`LEVELS[level]` with the raw level value and would panic out of bounds,
hence the `Option` (`none` = index panic); it then spawns one row per
layout entry, `brick_cols` bricks per row. The source's return value
(total brick count) is the length of this list. -/
def spawn_bricks (level : ℕ) : Option (List ℕ) :=
  LEVELS[level]?.map fun layout =>
    (layout.map fun strength => spawn_brick_row strength brick_cols).flatten

/-- Embeds ball_ricochet (src/breaker.rs:546): flips vx only on Left/Right
when moving toward the wall, vy only on Top/Bottom, nothing on Inside. -/
def ball_ricochet : Collision → Vec2 → Vec2
  | Collision.Left, v => { v with x := if v.x > 0 then -v.x else v.x }
  | Collision.Right, v => { v with x := if v.x < 0 then -v.x else v.x }
  | Collision.Top, v => { v with y := if v.y < 0 then -v.y else v.y }
  | Collision.Bottom, v => { v with y := if v.y > 0 then -v.y else v.y }
  | Collision.Inside, v => v

/-- Reflection rule as worded by the spec (refinement comparison for the
ball_ricochet embedding): flip X iff (Left ∧ vx>0) ∨ (Right ∧ vx<0),
flip Y iff (Top ∧ vy<0) ∨ (Bottom ∧ vy>0), Inside flips nothing. -/
def reflect_spec (c : Collision) (v : Vec2) : Vec2 :=
  ⟨if (c = Collision.Left ∧ v.x > 0) ∨ (c = Collision.Right ∧ v.x < 0) then -v.x else v.x,
   if (c = Collision.Top ∧ v.y < 0) ∨ (c = Collision.Bottom ∧ v.y > 0) then -v.y else v.y⟩

/-- Sign of a rational, for stating sign-pattern properties. -/
def sgn (q : ℚ) : ℤ :=
  if 0 < q then 1 else if q < 0 then -1 else 0

/-- Result of one brick_collision call (src/breaker.rs:580): new score,
new tracker value, the brick's new strength, whether it stays in the world
and, when it stays, the tint written to its sprite. -/
structure BrickHitResult where
  score : ℕ
  tracker : ℕ
  strength : ℕ
  alive : Bool
  tint : Option Color
deriving DecidableEq

/-- Embeds brick_collision: score += 10; strength -= 1; if the strength is
now 0 the brick is despawned and the tracker is decremented, otherwise its
tint becomes BRICK_COLORS[strength - 1]. -/
def brick_collision (score tracker strength : ℕ) : BrickHitResult :=
  let score2 := score + 10
  let s2 := strength - 1
  if s2 = 0 then
    ⟨score2, tracker - 1, s2, false, none⟩
  else
    ⟨score2, tracker, s2, true, BRICK_COLORS[s2 - 1]?⟩

/-- Output of check_bottom_wall_collision: final ball velocity, number of
CollisionEvent sends, number of PlayerMessage::JustLostHealth sends, and
the score (the system takes no scoreboard access; the score is threaded
through to state that it cannot change). -/
structure BottomPassOut where
  v : Vec2
  collisionEvents : ℕ
  playerEvents : ℕ
  score : ℕ
deriving DecidableEq

/-- Embeds walls::check_bottom_wall_collision (src/walls.rs:91): for each
BottomWall collider that overlaps the ball it sends one CollisionEvent,
one JustLostHealth message, and calls ball_ricochet on the ball velocity. -/
def check_bottom_wall_collision (ballT : Transform2) :
    List Transform2 → Vec2 → ℕ → BottomPassOut
  | [], v, score => ⟨v, 0, 0, score⟩
  | w :: rest, v, score =>
    match collide ballT.pos ballT.scale w.pos w.scale with
    | some c =>
      let out := check_bottom_wall_collision ballT rest (ball_ricochet c v) score
      ⟨out.v, out.collisionEvents + 1, out.playerEvents + 1, out.score⟩
    | none => check_bottom_wall_collision ballT rest v score

/-- Output of check_wall_collision: final velocity and CollisionEvent count. -/
structure WallPassOut where
  v : Vec2
  events : ℕ
deriving DecidableEq

/-- Embeds check_wall_collision (src/breaker.rs:514): iterates the Wall
(non-bottom) colliders; every overlap sends an event and ricochets.
The source loop has no break. -/
def check_wall_collision (ballT : Transform2) : List Transform2 → Vec2 → WallPassOut
  | [], v => ⟨v, 0⟩
  | w :: rest, v =>
    match collide ballT.pos ballT.scale w.pos w.scale with
    | some c =>
      let out := check_wall_collision ballT rest (ball_ricochet c v)
      ⟨out.v, out.events + 1⟩
    | none => check_wall_collision ballT rest v

/-- Output of check_paddle_collision: final velocity and CollisionEvent count. -/
structure PaddlePassOut where
  v : Vec2
  events : ℕ
deriving DecidableEq

/-- Embeds check_paddle_collision (src/breaker.rs:437). On the first
overlapping paddle it ricochets, applies the control-style influence when
the side is Top or Bottom, and then breaks out of the loop. The influence
functions (ball_influence_edges / ball_influence_momentum) use f32
trigonometry, so they are taken as parameters; the claims proved here do
not depend on them. -/
def check_paddle_collision
    (inflE inflM : Collision → Vec2 → ℚ → Transform2 → Vec2)
    (style : ControlStyle) (momentum : ℚ) (ballT : Transform2) :
    List Transform2 → Vec2 → PaddlePassOut
  | [], v => ⟨v, 0⟩
  | p :: rest, v =>
    match collide ballT.pos ballT.scale p.pos p.scale with
    | some c =>
      let v1 := ball_ricochet c v
      let v2 :=
        match c with
        | Collision.Bottom | Collision.Top =>
          match style with
          | ControlStyle.Edges => inflE c v1 momentum p
          | ControlStyle.Momentum => inflM c v1 momentum p
          | ControlStyle.Unaltered => v1
        | _ => v1
      ⟨v2, 1⟩
    | none => check_paddle_collision inflE inflM style momentum ballT rest v

/-- Output of check_brick_collisions: surviving bricks (with updated
strengths), final velocity, score, tracker, and CollisionEvent count. -/
structure BrickPassOut where
  bricks : List (Transform2 × ℕ)
  v : Vec2
  score : ℕ
  tracker : ℕ
  events : ℕ
deriving DecidableEq

/-- Embeds check_brick_collisions (src/breaker.rs:404): iterates every
brick collider; each overlap sends an event, runs brick_collision and
ricochets. No break: every overlapping brick is resolved. -/
def check_brick_collisions (ballT : Transform2) :
    List (Transform2 × ℕ) → Vec2 → ℕ → ℕ → BrickPassOut
  | [], v, score, tracker => ⟨[], v, score, tracker, 0⟩
  | (t, s) :: rest, v, score, tracker =>
    match collide ballT.pos ballT.scale t.pos t.scale with
    | some c =>
      let hit := brick_collision score tracker s
      let out := check_brick_collisions ballT rest (ball_ricochet c v) hit.score hit.tracker
      ⟨(if hit.alive then [(t, hit.strength)] else []) ++ out.bricks,
       out.v, out.score, out.tracker, out.events + 1⟩
    | none =>
      let out := check_brick_collisions ballT rest v score tracker
      ⟨(t, s) :: out.bricks, out.v, out.score, out.tracker, out.events⟩

/-- State read and written by health_handler (src/breaker.rs:625): the
Health resource, the optional Blinking windows on paddle and ball
(remaining duration), and the numeric value shown by the health text. -/
structure HealthHandlerState where
  health : ℕ
  paddleBlink : Option ℚ
  ballBlink : Option ℚ
  healthText : ℕ
deriving DecidableEq

/-- Embeds one JustLostHealth message through health_handler: if the paddle
is blinking, `continue` (drop); else if health is 0, send
AppStateTransition::ToMainMenu; else decrement health and attach a
BLINK_DURATION window to both paddle and ball. The two non-drop branches
fall through to the health-text update. -/
def health_handler_msg (s : HealthHandlerState) :
    HealthHandlerState × List AppStateTransition :=
  if s.paddleBlink.isSome then
    (s, [])
  else if s.health = 0 then
    ({ s with healthText := s.health }, [AppStateTransition.ToMainMenu])
  else
    (⟨s.health - 1, some BLINK_DURATION, some BLINK_DURATION, s.health - 1⟩, [])

/-- State read and written by transition_game (src/breaker.rs:195):
the inner game state, level, brick tracker, the live bricks (strengths),
ball/paddle translations, and the score and health resources. -/
structure PlayState where
  gameState : GameState
  level : ℕ
  tracker : ℕ
  bricks : List ℕ
  ballPos : Vec3Q
  paddlePos : Vec3Q
  score : ℕ
  health : ℕ
deriving DecidableEq

/-- Embeds one transition through transition_game's match:
ToUninitialized despawns every entity (the brick list empties; resources,
including the tracker, keep their values); ToPlayGame/ToHaltGame flip the
state; NextLevel increments the level, respawns bricks (panicking when the
LEVELS lookup is out of bounds) and resets ball and paddle positions;
ToGameOver executes a panic (the string is "You lost"). -/
def transition_game_step (s : PlayState) :
    GameStateTransition → Except Abort PlayState
  | GameStateTransition.ToUninitialized =>
    Except.ok { s with gameState := GameState.Uninitialized, bricks := [] }
  | GameStateTransition.ToPlayGame =>
    Except.ok { s with gameState := GameState.Playing }
  | GameStateTransition.ToHaltGame =>
    Except.ok { s with gameState := GameState.Paused }
  | GameStateTransition.NextLevel =>
    match spawn_bricks (s.level + 1) with
    | some bs =>
      Except.ok { s with
        level := s.level + 1,
        bricks := bs,
        tracker := bs.length,
        ballPos := BALL_STARTING_POSITION,
        paddlePos := ⟨PADDLE_STARTING_POSITION_X, PADDLE_STARTING_POSITION_Y, 0⟩ }
    | none => Except.error Abort.levelIndexOutOfBounds
  | GameStateTransition.ToGameOver =>
    Except.error Abort.youLost

/-- Embeds the transitions manage_game (src/breaker.rs:244) emits from the
current state: Uninitialized runs setup/spawn (modeled in the step relation
below) and requests ToPlayGame; Playing requests NextLevel when the tracker
is 0 and ToGameOver when health is 0; Paused emits nothing. -/
def manage_game (gs : GameState) (tracker health : ℕ) : List GameStateTransition :=
  match gs with
  | GameState.Uninitialized => [GameStateTransition.ToPlayGame]
  | GameState.Playing =>
    (if tracker = 0 then [GameStateTransition.NextLevel] else []) ++
      (if health = 0 then [GameStateTransition.ToGameOver] else [])
  | GameState.Paused => []

/-- Rust f32::clamp(lo, hi) = min (max x lo) hi. -/
def rust_clamp (x lo hi : ℚ) : ℚ := min (max x lo) hi

/-- Embeds update_paddle (src/breaker.rs:368): the paddle x becomes
clamp(old_x + momentum, PADDLE_LEFT_BOUND, PADDLE_RIGHT_BOUND). -/
def update_paddle (x momentum : ℚ) : ℚ :=
  rust_clamp (x + momentum) PADDLE_LEFT_BOUND PADDLE_RIGHT_BOUND

/-- The brick-related world state for the invariant claims: current level,
the live bricks (strengths), the BrickTracker resource, and the score. -/
structure GameWorld where
  level : ℕ
  bricks : List ℕ
  tracker : ℕ
  score : ℕ
deriving DecidableEq

/-- A single ball-brick hit on the brick at index i, exactly as performed
by check_brick_collisions via brick_collision: the strength decrements,
the brick is removed (and the tracker decremented) when it reaches 0. -/
def hitBrickAt (w : GameWorld) (i : ℕ) : GameWorld :=
  match w.bricks[i]? with
  | none => w
  | some s =>
    let hit := brick_collision w.score w.tracker s
    if hit.alive then
      { w with bricks := w.bricks.set i hit.strength, score := hit.score, tracker := hit.tracker }
    else
      { w with bricks := w.bricks.eraseIdx i, score := hit.score, tracker := hit.tracker }

/-- The operations of a running game that touch bricks, the tracker or the
level. `spawn_level` is the manage_game Uninitialized branch
(brick_tracker = spawn_bricks(level)); `hit` is one brick_collision from
the brick pass; `next_level` is transition_game's NextLevel arm. Spawning
requires the LEVELS lookup to succeed (otherwise the run panics and has no
successor state). GameStateTransition::ToUninitialized is never sent by
any system in the sources, and the remaining systems neither spawn nor
despawn bricks nor write the tracker. -/
inductive Step : GameWorld → GameWorld → Prop
  | spawn_level (w : GameWorld) (bs : List ℕ) :
      spawn_bricks w.level = some bs →
      Step w { w with bricks := bs, tracker := bs.length }
  | hit (w : GameWorld) (i : ℕ) :
      i < w.bricks.length →
      Step w (hitBrickAt w i)
  | next_level (w : GameWorld) (bs : List ℕ) :
      spawn_bricks (w.level + 1) = some bs →
      Step w { w with level := w.level + 1, bricks := bs, tracker := bs.length }

/-- Resources inserted by BreakoutGamePlugin::build: Level(1),
BrickTracker(0), Scoreboard 0, and no entities yet. -/
def initWorld : GameWorld := ⟨1, [], 0, 0⟩

/-- States reachable from the plugin's initial resources. -/
def Reachable (w : GameWorld) : Prop :=
  Relation.ReflTransGen Step initWorld w

/-- Helper: brick_cols evaluates to 7 (floor(780 / 105)). -/
theorem brick_cols_eq : brick_cols = 7 := by
  have h : ((arena_width - 2 * BRICK_DIST_FROM_SIDE_WALL) / (BRICK_SIZE_X + BRICK_MARGIN) : ℚ)
      = 52 / 7 := by
    norm_num [arena_width, RIGHT_WALL, LEFT_WALL, BRICK_DIST_FROM_SIDE_WALL,
      BRICK_SIZE_X, BRICK_MARGIN]
  have h2 : ((52 : ℚ) / 7) = ((52 : ℤ) : ℚ) / ((7 : ℕ) : ℚ) := by norm_num
  unfold brick_cols
  rw [h, h2, Rat.floor_intCast_div_natCast]
  decide

/-- Helper: a single Step preserves the tracker/live-brick invariant and
keeps the level at 1 or above. -/
theorem step_preserves_inv (w w2 : GameWorld) (st : Step w w2)
    (htr : w.tracker = w.bricks.length) (hlev : 1 ≤ w.level) :
    w2.tracker = w2.bricks.length ∧ 1 ≤ w2.level := by
  cases st with
  | spawn_level bs hbs => exact ⟨rfl, hlev⟩
  | hit i hi =>
    unfold hitBrickAt
    rw [List.getElem?_eq_getElem hi]
    by_cases h0 : w.bricks[i] - 1 = 0 <;>
      simp [brick_collision, h0, List.length_eraseIdx_of_lt hi] <;>
        omega
  | next_level bs hbs =>
    refine ⟨rfl, ?_⟩
    show 1 ≤ w.level + 1
    omega

/-- Helper: every reachable world keeps the BrickTracker equal to the
number of live bricks and its level at 1 or above. -/
theorem reachable_inv (w : GameWorld) (h : Reachable w) :
    w.tracker = w.bricks.length ∧ 1 ≤ w.level := by
  induction h with
  | refl => exact ⟨rfl, le_refl 1⟩
  | tail _ step ih => exact step_preserves_inv _ _ step ih.1 ih.2

/-- C4 counterexample: the claim as stated is false. Reflecting the
velocity (1, 1) off side Left twice yields (-1, 1), whose x sign differs
from the original: the double application is not a double negation. -/
theorem ricochet_twice_cex :
    ball_ricochet Collision.Left (ball_ricochet Collision.Left ⟨1, 1⟩) = ⟨-1, 1⟩ ∧
    sgn (ball_ricochet Collision.Left (ball_ricochet Collision.Left ⟨1, 1⟩)).x ≠
      sgn ((⟨1, 1⟩ : Vec2)).x := by
  norm_num [ball_ricochet, sgn]

/-- C4 (amended): applying ball_ricochet twice with the same side equals
applying it once (the reflection is conditional, hence idempotent rather
than an unconditional double negation), and a single application follows
exactly the spec's flip rule: flip X iff (Left ∧ vx>0) ∨ (Right ∧ vx<0),
flip Y iff (Top ∧ vy<0) ∨ (Bottom ∧ vy>0), Inside flips nothing. -/
theorem ricochet_idempotent_matches_flip_rule (c : Collision) (v : Vec2) :
    ball_ricochet c (ball_ricochet c v) = ball_ricochet c v ∧
    ball_ricochet c v = reflect_spec c v := by
  obtain ⟨x, y⟩ := v
  cases c <;>
    refine ⟨?_, ?_⟩ <;>
      simp only [ball_ricochet, reflect_spec] <;>
        split_ifs <;>
          simp_all <;>
            linarith

/-- C2 counterexample: a ball of size 30 at (0, -288) moving straight down
with velocity (0, -1) overlaps the bottom wall, and the bottom-wall pass
does change its velocity (it ricochets to (0, 1)): the pass does not leave
the ball velocity unchanged. -/
theorem bottom_wall_pass_reflects_cex :
    (collide ⟨0, -288⟩ ⟨30, 30⟩ bottomWallTform.pos bottomWallTform.scale).isSome = true ∧
    (check_bottom_wall_collision ⟨⟨0, -288⟩, ⟨30, 30⟩⟩ [bottomWallTform] ⟨0, -1⟩ 0).v ≠
      ⟨0, -1⟩ := by
  norm_num [collide, check_bottom_wall_collision, ball_ricochet, bottomWallTform,
    arena_width, BOTTOM_WALL, RIGHT_WALL, LEFT_WALL, WALL_THICKNESS]

/-- C2 (amended): for every ball state overlapping the bottom wall, the
bottom-wall pass emits exactly one player-lost-health event for that
overlap and changes the score by zero, but it does reflect the ball's
velocity through ball_ricochet rather than leaving it unchanged. -/
theorem bottom_wall_pass_spec (ballT : Transform2) (v : Vec2) (score : ℕ) (c : Collision)
    (h : collide ballT.pos ballT.scale bottomWallTform.pos bottomWallTform.scale = some c) :
    check_bottom_wall_collision ballT [bottomWallTform] v score =
      ⟨ball_ricochet c v, 1, 1, score⟩ := by
  simp [check_bottom_wall_collision, h]

/-- Witness for C2's amended theorem at the counterexample configuration. -/
theorem bottom_wall_pass_spec_witness :
    check_bottom_wall_collision ⟨⟨0, -288⟩, ⟨30, 30⟩⟩ [bottomWallTform] ⟨0, -1⟩ 7 =
      ⟨⟨0, 1⟩, 1, 1, 7⟩ := by
  have h := bottom_wall_pass_spec ⟨⟨0, -288⟩, ⟨30, 30⟩⟩ ⟨0, -1⟩ 7 Collision.Top
    (by norm_num [collide, bottomWallTform, arena_width, BOTTOM_WALL, RIGHT_WALL,
      LEFT_WALL, WALL_THICKNESS])
  rw [h]
  norm_num [ball_ricochet]

/-- C3: health_handler on one JustLostHealth message: an active paddle
blink window drops the event (state unchanged, nothing sent); with no
blink and health 0 it requests AppStateTransition::ToMainMenu and leaves
health at 0; otherwise it decrements health by exactly one and attaches a
BLINK_DURATION blink window to both the paddle and the ball. -/
theorem health_handler_cases (s : HealthHandlerState) :
    (s.paddleBlink.isSome = true → health_handler_msg s = (s, [])) ∧
    (s.paddleBlink = none → s.health = 0 →
      health_handler_msg s =
        ({ s with healthText := s.health }, [AppStateTransition.ToMainMenu]) ∧
      (health_handler_msg s).1.health = s.health) ∧
    (s.paddleBlink = none → 0 < s.health →
      (health_handler_msg s).1.health + 1 = s.health ∧
      (health_handler_msg s).1.paddleBlink = some BLINK_DURATION ∧
      (health_handler_msg s).1.ballBlink = some BLINK_DURATION ∧
      (health_handler_msg s).2 = []) := by
  refine ⟨?_, ?_, ?_⟩
  · intro h
    simp [health_handler_msg, h]
  · intro h h0
    simp [health_handler_msg, h, h0]
  · intro h h0
    have hne : ¬s.health = 0 := by omega
    simp [health_handler_msg, h, hne]
    omega

/-- Witness for C3 exercising all three branches of health_handler. -/
theorem health_handler_cases_witness :
    health_handler_msg ⟨3, some 1, some 1, 3⟩ = (⟨3, some 1, some 1, 3⟩, []) ∧
    (health_handler_msg ⟨0, none, none, 0⟩).2 = [AppStateTransition.ToMainMenu] ∧
    (health_handler_msg ⟨3, none, none, 3⟩).1.health + 1 = 3 := by
  refine ⟨(health_handler_cases ⟨3, some 1, some 1, 3⟩).1 rfl, ?_, ?_⟩
  · rw [((health_handler_cases ⟨0, none, none, 0⟩).2.1 rfl rfl).1]
  · exact ((health_handler_cases ⟨3, none, none, 3⟩).2.2 rfl (by decide)).1

/-- C5: a strength-3 brick hit through brick_collision: first hit leaves
strength 2, the brick alive and tinted with BRICK_COLORS index 1; each hit
adds exactly 10 score; the third hit removes the brick and decrements the
live-brick counter by exactly 1; the three hits add exactly 30 score. -/
theorem brick_three_hits (score tracker : ℕ) (h : 1 ≤ tracker) :
    (brick_collision score tracker 3).strength = 2 ∧
    (brick_collision score tracker 3).alive = true ∧
    (brick_collision score tracker 3).tint = BRICK_COLORS[1]? ∧
    (brick_collision score tracker 3).score = score + 10 ∧
    (brick_collision score tracker 3).tracker = tracker ∧
    (brick_collision (score + 10) tracker 2).strength = 1 ∧
    (brick_collision (score + 10) tracker 2).alive = true ∧
    (brick_collision (score + 10) tracker 2).score = score + 20 ∧
    (brick_collision (score + 20) tracker 1).alive = false ∧
    (brick_collision (score + 20) tracker 1).score = score + 30 ∧
    (brick_collision (score + 20) tracker 1).tracker + 1 = tracker := by
  refine ⟨rfl, rfl, rfl, rfl, rfl, rfl, rfl, ?_, rfl, ?_, ?_⟩
  · show score + 10 + 10 = score + 20
    omega
  · show score + 20 + 10 = score + 30
    omega
  · have htr : (brick_collision (score + 20) tracker 1).tracker = tracker - 1 := rfl
    omega

/-- Witness for C5 at score 0 and a 35-brick tracker. -/
theorem brick_three_hits_witness :
    (brick_collision 0 35 3).strength = 2 ∧
    (brick_collision 20 35 1).tracker + 1 = 35 := by
  have h := brick_three_hits 0 35 (by decide)
  exact ⟨h.1, h.2.2.2.2.2.2.2.2.2.2⟩

/-- C1: the claim fails on the code. When health is 0 while Playing,
manage_game requests ToGameOver, and transition_game's ToGameOver arm
executes a panic (process abort), rather than returning control to the
menu as a normal state transition. The graceful path the spec describes
(AppStateTransition::ToMainMenu) lives in health_handler instead. -/
theorem game_over_request_panics (tracker : ℕ) (s : PlayState) :
    GameStateTransition.ToGameOver ∈ manage_game GameState.Playing tracker 0 ∧
    transition_game_step s GameStateTransition.ToGameOver = Except.error Abort.youLost := by
  constructor
  · by_cases h : tracker = 0 <;> simp [manage_game, h]
  · rfl

/-- C6: the BrickTracker resource equals the number of live bricks in
every reachable world: spawning replaces the tracker with the number of
bricks spawned, and the only brick-removing operation (brick_collision)
decrements the tracker in the same operation. -/
theorem brick_tracker_matches_live_bricks (w : GameWorld) (h : Reachable w) :
    w.tracker = w.bricks.length :=
  (reachable_inv w h).1

/-- Witness for C6: after spawning level 1's bricks from the initial
world, the tracker (35) equals the length of the live-brick list. -/
theorem brick_tracker_matches_live_bricks_witness :
    Reachable ⟨1, List.replicate 7 2 ++ List.replicate 7 1 ++ List.replicate 7 1 ++
      List.replicate 7 1 ++ List.replicate 7 2, 35, 0⟩ ∧
    (35 : ℕ) = (List.replicate 7 2 ++ List.replicate 7 1 ++ List.replicate 7 1 ++
      List.replicate 7 1 ++ List.replicate 7 2 : List ℕ).length := by
  have hspawn : spawn_bricks 1 = some (List.replicate 7 2 ++ List.replicate 7 1 ++
      List.replicate 7 1 ++ List.replicate 7 1 ++ List.replicate 7 2) := by
    simp only [spawn_bricks, spawn_brick_row, brick_cols_eq]
    rfl
  have hstep : Step initWorld ⟨1, List.replicate 7 2 ++ List.replicate 7 1 ++
      List.replicate 7 1 ++ List.replicate 7 1 ++ List.replicate 7 2, 35, 0⟩ :=
    Step.spawn_level initWorld _ hspawn
  have hr : Reachable ⟨1, List.replicate 7 2 ++ List.replicate 7 1 ++ List.replicate 7 1 ++
      List.replicate 7 1 ++ List.replicate 7 2, 35, 0⟩ :=
    Relation.ReflTransGen.single hstep
  exact ⟨hr, brick_tracker_matches_live_bricks _ hr⟩

/-- C7: transition_game's NextLevel arm increments the level by exactly 1,
rebuilds the bricks for the new level (the tracker becomes the number of
bricks spawned), resets the ball and paddle to their starting positions,
and leaves score and health unchanged. -/
theorem transition_next_level (s : PlayState) (bs : List ℕ)
    (h : spawn_bricks (s.level + 1) = some bs) :
    transition_game_step s GameStateTransition.NextLevel =
      Except.ok { s with
        level := s.level + 1,
        bricks := bs,
        tracker := bs.length,
        ballPos := BALL_STARTING_POSITION,
        paddlePos := ⟨PADDLE_STARTING_POSITION_X, PADDLE_STARTING_POSITION_Y, 0⟩ } ∧
    ({ s with
        level := s.level + 1,
        bricks := bs,
        tracker := bs.length,
        ballPos := BALL_STARTING_POSITION,
        paddlePos := ⟨PADDLE_STARTING_POSITION_X, PADDLE_STARTING_POSITION_Y, 0⟩ } :
          PlayState).score = s.score ∧
    ({ s with
        level := s.level + 1,
        bricks := bs,
        tracker := bs.length,
        ballPos := BALL_STARTING_POSITION,
        paddlePos := ⟨PADDLE_STARTING_POSITION_X, PADDLE_STARTING_POSITION_Y, 0⟩ } :
          PlayState).health = s.health := by
  refine ⟨?_, rfl, rfl⟩
  simp [transition_game_step, h]

/-- Witness for C7: a NextLevel transition from level 1 with score 55 and
health 2 lands on level 2 with 35 fresh bricks, reset ball and paddle
positions, and the same score and health. -/
theorem transition_next_level_witness :
    transition_game_step ⟨GameState.Playing, 1, 0, [], ⟨0, 0, 1⟩, ⟨0, -240, 0⟩, 55, 2⟩
        GameStateTransition.NextLevel =
      Except.ok ⟨GameState.Playing, 2, 35,
        List.replicate 7 1 ++ List.replicate 7 1 ++ List.replicate 7 2 ++
          List.replicate 7 2 ++ List.replicate 7 3,
        ⟨-150, -50, 1⟩, ⟨0, -240, 0⟩, 55, 2⟩ := by
  have hspawn : spawn_bricks (1 + 1) = some (List.replicate 7 1 ++ List.replicate 7 1 ++
      List.replicate 7 2 ++ List.replicate 7 2 ++ List.replicate 7 3) := by
    simp only [spawn_bricks, spawn_brick_row, brick_cols_eq]
    rfl
  have h := (transition_next_level
    ⟨GameState.Playing, 1, 0, [], ⟨0, 0, 1⟩, ⟨0, -240, 0⟩, 55, 2⟩ _ hspawn).1
  rw [h]
  norm_num [BALL_STARTING_POSITION, PADDLE_STARTING_POSITION_X, PADDLE_STARTING_POSITION_Y,
    BOTTOM_WALL, PADDLE_DIST_FROM_BOTTOM_WALL]

/-- C8 counterexample: the claim that the side/top-wall pass resolves at
most one collision per tick is false: a ball of size 30 at (-437, 288)
overlaps both the left wall and the top wall, and check_wall_collision
(whose loop has no break) resolves both in the same tick. -/
theorem wall_pass_multi_hit_cex :
    (check_wall_collision ⟨⟨-437, 288⟩, ⟨30, 30⟩⟩ sideTopWalls ⟨1, 1⟩).events = 2 ∧
    ¬ ((check_wall_collision ⟨⟨-437, 288⟩, ⟨30, 30⟩⟩ sideTopWalls ⟨1, 1⟩).events ≤ 1) := by
  norm_num [check_wall_collision, collide, ball_ricochet, sideTopWalls, leftWallTform,
    rightWallTform, topWallTform, arena_width, arena_height, LEFT_WALL, RIGHT_WALL,
    TOP_WALL, BOTTOM_WALL, WALL_THICKNESS]

/-- C8 (amended): within one tick the paddle pass resolves at most one
collision (break after first hit), while both the brick pass and the
side/top-wall pass resolve a collision against every overlapping collider
of their category (neither loop breaks). -/
theorem collision_pass_multiplicity :
    (∀ inflE inflM style momentum ballT paddles v,
      (check_paddle_collision inflE inflM style momentum ballT paddles v).events ≤ 1) ∧
    (∀ (ballT : Transform2) (walls : List Transform2) (v : Vec2),
      (check_wall_collision ballT walls v).events =
        walls.countP fun w => (collide ballT.pos ballT.scale w.pos w.scale).isSome) ∧
    (∀ (ballT : Transform2) (bricks : List (Transform2 × ℕ)) (v : Vec2) (score tracker : ℕ),
      (check_brick_collisions ballT bricks v score tracker).events =
        bricks.countP fun b => (collide ballT.pos ballT.scale b.1.pos b.1.scale).isSome) := by
  refine ⟨?_, ?_, ?_⟩
  · intro inflE inflM style momentum ballT paddles
    induction paddles with
    | nil => intro v; simp [check_paddle_collision]
    | cons p rest ih =>
      intro v
      cases hc : collide ballT.pos ballT.scale p.pos p.scale with
      | some c => simp [check_paddle_collision, hc]
      | none =>
        simp only [check_paddle_collision, hc]
        exact ih v
  · intro ballT walls
    induction walls with
    | nil => intro v; simp [check_wall_collision]
    | cons w rest ih =>
      intro v
      cases hc : collide ballT.pos ballT.scale w.pos w.scale with
      | some c => simp [check_wall_collision, hc, ih, List.countP_cons]
      | none => simp [check_wall_collision, hc, ih, List.countP_cons]
  · intro ballT bricks
    induction bricks with
    | nil => intro v score tracker; simp [check_brick_collisions]
    | cons b rest ih =>
      intro v score tracker
      obtain ⟨t, s⟩ := b
      cases hc : collide ballT.pos ballT.scale t.pos t.scale with
      | some c => simp [check_brick_collisions, hc, ih, List.countP_cons]
      | none => simp [check_brick_collisions, hc, ih, List.countP_cons]

/-- C9: for every momentum in [-PADDLE_MAX_MOMENTUM, PADDLE_MAX_MOMENTUM]
and every starting x, update_paddle computes clamp(old_x + momentum,
PADDLE_LEFT_BOUND, PADDLE_RIGHT_BOUND), the result lies within the bounds
inclusive, and the bounds are the arena edges inset by half of (paddle
width plus wall thickness) plus the padding constant. -/
theorem paddle_update_clamped (x momentum : ℚ)
    (h1 : -PADDLE_MAX_MOMENTUM ≤ momentum) (h2 : momentum ≤ PADDLE_MAX_MOMENTUM) :
    update_paddle x momentum = rust_clamp (x + momentum) PADDLE_LEFT_BOUND PADDLE_RIGHT_BOUND ∧
    PADDLE_LEFT_BOUND ≤ update_paddle x momentum ∧
    update_paddle x momentum ≤ PADDLE_RIGHT_BOUND ∧
    PADDLE_LEFT_BOUND = LEFT_WALL + (PADDLE_SIZE_X + WALL_THICKNESS) / 2 + PADDLE_PADDING ∧
    PADDLE_RIGHT_BOUND = RIGHT_WALL - ((PADDLE_SIZE_X + WALL_THICKNESS) / 2 + PADDLE_PADDING) := by
  have hLR : PADDLE_LEFT_BOUND ≤ PADDLE_RIGHT_BOUND := by
    norm_num [PADDLE_LEFT_BOUND, PADDLE_RIGHT_BOUND, LEFT_WALL, RIGHT_WALL, WALL_THICKNESS,
      PADDLE_SIZE_X, PADDLE_PADDING]
  refine ⟨rfl, ?_, ?_, ?_, ?_⟩
  · exact le_min (le_max_right _ _) hLR
  · exact min_le_right _ _
  · norm_num [PADDLE_LEFT_BOUND, LEFT_WALL, WALL_THICKNESS, PADDLE_SIZE_X, PADDLE_PADDING]
  · norm_num [PADDLE_RIGHT_BOUND, RIGHT_WALL, WALL_THICKNESS, PADDLE_SIZE_X, PADDLE_PADDING]

/-- Witness for C9 at x = 0, momentum = 0. -/
theorem paddle_update_clamped_witness :
    PADDLE_LEFT_BOUND ≤ update_paddle 0 0 ∧ update_paddle 0 0 ≤ PADDLE_RIGHT_BOUND := by
  have h := paddle_update_clamped 0 0 (by norm_num [PADDLE_MAX_MOMENTUM])
    (by norm_num [PADDLE_MAX_MOMENTUM])
  exact ⟨h.2.1, h.2.2.1⟩

/-- C10: spawn_bricks indexes the 5-entry LEVELS table with the raw level
counter; the level starts at 1 in every reachable world, so the first
layout (index 0, all rows strength 1) is never selected; the lookup
succeeds exactly for indices below 5, so among reachable level values it
is in bounds only for 1 through 4, and the fifth advance (level 5)
already indexes past the table even though it holds 5 layouts. -/
theorem levels_raw_indexing :
    LEVELS.length = 5 ∧
    LEVELS[0]? = some [1, 1, 1, 1, 1] ∧
    (∀ w, Reachable w → 1 ≤ w.level) ∧
    (∀ level, (spawn_bricks level).isSome = true ↔ level < 5) ∧
    spawn_bricks 5 = none := by
  refine ⟨rfl, rfl, fun w h => (reachable_inv w h).2, ?_, rfl⟩
  intro level
  constructor
  · intro h
    by_contra hge
    push_neg at hge
    have hnone : LEVELS[level]? = none :=
      List.getElem?_eq_none (by simpa [LEVELS] using hge)
    simp [spawn_bricks, hnone] at h
  · intro h
    interval_cases level <;> rfl

/-- Witness for C10: the initial world is reachable with level 1, and the
lookup for level 5 fails. -/
theorem levels_raw_indexing_witness :
    1 ≤ initWorld.level ∧ spawn_bricks 5 = none :=
  ⟨levels_raw_indexing.2.2.1 initWorld Relation.ReflTransGen.refl,
   levels_raw_indexing.2.2.2.2⟩

end BrickHero
